import Mathlib

/-!
Shallow embedding of the snapshot-testing library in `snapshot.go`.

The on-disk state is modelled explicitly: a filesystem is a set of existing
directories plus an association list from file paths to byte contents.  The
process environment is an association list from variable names to values.
Bytes are modelled as lists of naturals.

External collaborators, excluded from the core by the specification, are
modelled as parameters:
  - the unified-diff engine (`difflib` in the source) is a function
    argument `diffFn : Bytes → Bytes → Int → Except String String`;
  - a compiled regular expression (`regexp.Regexp` in the source) is a
    matcher `String → Bool` standing for
    `fun s => (re.FindStringIndex s) ≠ nil`, and `regexp.Compile` results
    are passed to `IgnoreRegex` as an `Except` value;
  - the test-reporting interface `testing.TB` is replaced by an explicit
    `Outcome` return value; every failure in the source goes through
    `t.Fatalf`, so a single `fatalFail` constructor carries the message.

The serializer path of the package-level `Assert` (the `spew` structural
dump) is an excluded collaborator as well; the claims below are about the
byte-level entry point `Config.Assert`.
-/

set_option autoImplicit false

namespace Snapshot

/-- Byte sequences (`[]byte` in the source). -/
abbrev Bytes := List Nat

/-- Explicit filesystem state: the set of directories that exist and the
files that exist, as a path-keyed association list. -/
structure FS where
  dirs : List String
  files : List (String × Bytes)
deriving Repr, DecidableEq

/-- `os.Stat` + `os.IsNotExist` on a directory path: does the directory
exist? -/
def FS.dirExists (fs : FS) (d : String) : Bool :=
  fs.dirs.contains d

/-- `ioutil.ReadFile`: the contents of the file at path `p`, or `none` when
no such file exists (the only read error the model distinguishes). -/
def FS.readFile (fs : FS) (p : String) : Option Bytes :=
  fs.files.lookup p

/-- `os.Create` followed by `Write`: create or overwrite the file at `p`
with contents `b`. -/
def FS.writeFile (fs : FS) (p : String) (b : Bytes) : FS :=
  { fs with files := (p, b) :: fs.files.filter (fun kv => !(kv.1 == p)) }

/-- `os.MkdirAll`: make the directory exist.  (Parent directories are not
tracked separately: the controller only ever checks the configured
directory itself.) -/
def FS.mkdirAll (fs : FS) (d : String) : FS :=
  { fs with dirs := d :: fs.dirs }

/-- `path.Join dir file` for a clean directory path and a relative file
name.  (Go additionally cleans the joined path; no claim depends on
cleaning.) -/
def pathJoin (dir file : String) : String :=
  dir ++ "/" ++ file

/-- The process environment, as seen by `os.LookupEnv`. -/
abbrev Env := List (String × String)

/-- `os.LookupEnv`: the value of variable `k`, or `none` when absent. -/
def lookupEnv (env : Env) (k : String) : Option String :=
  env.lookup k

/-- `Config` from the source: snapshot directory, diff context lines,
diffability flag, snapshot file extension, and the optional compiled
ignore pattern (modelled as a matcher, see the file header). -/
structure Config where
  Directory : String
  Context : Int
  Diffable : Bool
  Extension : String
  ignore : Option (String → Bool)

/-- `ConfigOption`: a functional option, `func(c *Config) error`. -/
abbrev ConfigOption := Config → Except String Config

/-- The option-application loop inside `New`. -/
def applyOptions : List ConfigOption → Config → Except String Config
  | [], c => .ok c
  | opt :: rest, c =>
    match opt c with
    | .error e => .error e
    | .ok c2 => applyOptions rest c2

/-- `New`: build a config from the defaults, then apply the options in
order.  `wd` is the working directory returned by `os.Getwd` (its failure
mode is outside the model). -/
def New (wd : String) (options : List ConfigOption) : Except String Config :=
  applyOptions options
    { Directory := pathJoin wd "__snapshots__"
      Context := 10
      Diffable := true
      Extension := ".snap"
      ignore := none }

/-- `SnapDirectory`: set the snapshot directory. -/
def SnapDirectory (dir : String) : ConfigOption :=
  fun c => .ok { c with Directory := dir }

/-- `ContextLines`: set the number of context lines (no validation in the
source). -/
def ContextLines (n : Int) : ConfigOption :=
  fun c => .ok { c with Context := n }

/-- `Diffable`: set the diffability flag. -/
def Diffable (b : Bool) : ConfigOption :=
  fun c => .ok { c with Diffable := b }

/-- `IgnoreRegex`: install an ignore pattern.  `compiled` is the result of
`regexp.Compile` on the pattern string, delivered by the external regex
engine: an error fails the option, a matcher is stored in `ignore`. -/
def IgnoreRegex (compiled : Except String (String → Bool)) : ConfigOption :=
  fun c =>
    match compiled with
    | .error e => .error e
    | .ok reg => .ok { c with ignore := some reg }

/-- `SnapExtension`: set the snapshot file extension. -/
def SnapExtension (ext : String) : ConfigOption :=
  fun c => .ok { c with Extension := ext }

/-- The character map of the `strings.NewReplacer` in `getSnapFilename`:
apostrophe (character 39), space, `<`, `>`, `&`, `#`, `/` and backslash
each become `-`; every other character is unchanged. -/
def replaceSnapChar (c : Char) : Char :=
  if c == Char.ofNat 39 || c == ' ' || c == '<' || c == '>' ||
     c == '&' || c == '#' || c == '/' || c == '\\' then '-' else c

/-- `getSnapFilename`: lower-case the test name (`strings.ToLower`; both
it and the replacer are character-wise, so they are modelled on the
character list; `Char.toLower` matches Go on ASCII, which every claim
uses), apply the replacer, and append the extension. -/
def getSnapFilename (testname : String) (ext : String) : String :=
  String.mk ((testname.data.map Char.toLower).map replaceSnapChar) ++ ext

/-- `isUpdateable`: update mode is on exactly when `UPDATE_SNAPSHOTS` is
present in the environment; the value is not inspected. -/
def isUpdateable (env : Env) : Bool :=
  (lookupEnv env "UPDATE_SNAPSHOTS").isSome

/-- `createSnapshot`: write the snapshot file for `testname` under `dir`.
`os.Create` fails when the directory does not exist; that is the only
write failure the model represents. -/
def createSnapshot (fs : FS) (testname : String) (b : Bytes) (dir ext : String) :
    Except String FS :=
  if fs.dirExists dir then
    .ok (fs.writeFile (pathJoin dir (getSnapFilename testname ext)) b)
  else
    .error "no such file or directory"

/-- `readSnapshot`: read the snapshot file for `testname` under `dir`. -/
def readSnapshot (fs : FS) (testname dir ext : String) : Option Bytes :=
  fs.readFile (pathJoin dir (getSnapFilename testname ext))

/-- The outcome reported through `testing.TB`.  The source reports every
failure with `t.Fatalf`, so there is one failing constructor, carrying the
formatted message. -/
inductive Outcome where
  | pass
  | fatalFail (msg : String)
deriving Repr, DecidableEq

/-- The external unified-diff engine: `getDiff`, given expected bytes,
actual bytes and the context-line count, produces the rendered diff text
or an error. -/
abbrev DiffFn := Bytes → Bytes → Int → Except String String

/-- `Config.Assert`, the lifecycle controller: one deterministic pass over
the state machine, returning the filesystem after the call and the
reported outcome.  The environment is read at call time through
`isUpdateable`.  Control flow mirrors the source line by line; the
`MkdirAll` failure branch of the source cannot occur in this filesystem
model and is absent. -/
def Config.Assert (c : Config) (diffFn : DiffFn) (env : Env) (testName : String)
    (b : Bytes) (fs : FS) : FS × Outcome :=
  if !(fs.dirExists c.Directory) then
    if isUpdateable env then
      let fs1 := fs.mkdirAll c.Directory
      match createSnapshot fs1 testName b c.Directory c.Extension with
      | .error e => (fs1, .fatalFail ("Unable to create snapshot: " ++ e))
      | .ok fs2 => (fs2, .pass)
    else
      (fs, .fatalFail "No snapshot directory exists and UPDATE_SNAPSHOTS=false.  Failing.")
  else
    match readSnapshot fs testName c.Directory c.Extension with
    | none =>
      match createSnapshot fs testName b c.Directory c.Extension with
      | .error e => (fs, .fatalFail ("Unable to create snapshot: " ++ e))
      | .ok fs2 => (fs2, .pass)
    | some expected =>
      if expected == b then
        (fs, .pass)
      else if isUpdateable env then
        match createSnapshot fs testName b c.Directory c.Extension with
        | .error e => (fs, .fatalFail ("Unable to create snapshot: " ++ e))
        | .ok fs2 => (fs2, .pass)
      else if c.Diffable then
        match diffFn expected b c.Context with
        | .error e => (fs, .fatalFail ("Unable to compare snapshot to test output: " ++ e))
        | .ok diff =>
          match c.ignore with
          | some reg =>
            if reg diff then
              (fs, .pass)
            else
              (fs, .fatalFail ("Snapshot test failed for: " ++ testName ++ ".  Diff:\n\n" ++ diff))
          | none =>
            (fs, .fatalFail ("Snapshot test failed for: " ++ testName ++ ".  Diff:\n\n" ++ diff))
      else
        (fs, .fatalFail ("Snapshot test failed for: " ++ testName ++ ".  Diff: (undiffable binary format)"))

/-- The full path of the snapshot file for test `tn` under config `c`:
`{directory}/{snapshot identity}`. -/
def Config.snapPath (c : Config) (tn : String) : String :=
  pathJoin c.Directory (getSnapFilename tn c.Extension)

/-! ### Helper lemmas about the filesystem model -/

theorem filter_ne_of_lookup_none (l : List (String × Bytes)) (p : String)
    (h : l.lookup p = none) : l.filter (fun kv => !(kv.1 == p)) = l := by
  induction l with
  | nil => rfl
  | cons kv t ih =>
    obtain ⟨k, v⟩ := kv
    by_cases hk : p = k
    · subst hk
      simp [List.lookup] at h
    · have hpk : (p == k) = false := beq_eq_false_iff_ne.mpr hk
      have hkp : (k == p) = false := beq_eq_false_iff_ne.mpr (fun e => hk e.symm)
      simp only [List.lookup, hpk] at h
      simp [List.filter, hkp, ih h]

theorem FS.readFile_writeFile_self (fs : FS) (p : String) (b : Bytes) :
    (fs.writeFile p b).readFile p = some b := by
  simp [FS.writeFile, FS.readFile, List.lookup]

theorem FS.dirExists_writeFile (fs : FS) (p : String) (b : Bytes) (d : String) :
    (fs.writeFile p b).dirExists d = fs.dirExists d := rfl

theorem FS.dirExists_mkdirAll_self (fs : FS) (d : String) :
    (fs.mkdirAll d).dirExists d = true := by
  simp [FS.mkdirAll, FS.dirExists]

theorem readSnapshot_writeFile_snapPath (fs : FS) (c : Config) (tn : String) (b : Bytes) :
    readSnapshot (fs.writeFile (c.snapPath tn) b) tn c.Directory c.Extension = some b := by
  simp only [readSnapshot, Config.snapPath]
  exact FS.readFile_writeFile_self fs _ b

theorem FS.length_writeFile_new (fs : FS) (p : String) (b : Bytes)
    (h : fs.readFile p = none) :
    (fs.writeFile p b).files.length = fs.files.length + 1 := by
  simp [FS.writeFile, filter_ne_of_lookup_none fs.files p h]

/-! ### Claim theorems -/

/-- Claim C1: with update mode off, if the snapshot file exists and its
stored bytes equal the actual bytes, `Assert` passes and performs no side
effect (the filesystem is returned unchanged); consequently asserting the
same value for the same test identity twice in a row never mutates the
stored snapshot and the second call passes. -/
theorem assert_equal_passes_no_side_effect
    (c : Config) (diffFn : DiffFn) (env : Env) (tn : String) (b : Bytes) (fs : FS)
    (_hupd : isUpdateable env = false)
    (hdir : fs.dirExists c.Directory = true)
    (hread : readSnapshot fs tn c.Directory c.Extension = some b) :
    c.Assert diffFn env tn b fs = (fs, Outcome.pass) ∧
    c.Assert diffFn env tn b (c.Assert diffFn env tn b fs).1 =
      ((c.Assert diffFn env tn b fs).1, Outcome.pass) := by
  have h1 : c.Assert diffFn env tn b fs = (fs, Outcome.pass) := by
    simp [Config.Assert, hdir, hread]
  exact ⟨h1, by rw [h1]; simpa using h1⟩

theorem assert_equal_passes_no_side_effect_check :
    isUpdateable ([] : Env) = false ∧
    FS.dirExists ⟨["/s"], [("/s/t.snap", [1, 2])]⟩ "/s" = true ∧
    readSnapshot ⟨["/s"], [("/s/t.snap", [1, 2])]⟩ "t" "/s" ".snap" = some [1, 2] ∧
    (Config.Assert ⟨"/s", 10, true, ".snap", none⟩ (fun _ _ _ => .ok "") [] "t" [1, 2]
        ⟨["/s"], [("/s/t.snap", [1, 2])]⟩ = (⟨["/s"], [("/s/t.snap", [1, 2])]⟩, Outcome.pass) ∧
      Config.Assert ⟨"/s", 10, true, ".snap", none⟩ (fun _ _ _ => .ok "") [] "t" [1, 2]
          (Config.Assert ⟨"/s", 10, true, ".snap", none⟩ (fun _ _ _ => .ok "") [] "t" [1, 2]
            ⟨["/s"], [("/s/t.snap", [1, 2])]⟩).1 =
        ((Config.Assert ⟨"/s", 10, true, ".snap", none⟩ (fun _ _ _ => .ok "") [] "t" [1, 2]
            ⟨["/s"], [("/s/t.snap", [1, 2])]⟩).1, Outcome.pass)) :=
  ⟨by decide, by decide, by decide,
    assert_equal_passes_no_side_effect ⟨"/s", 10, true, ".snap", none⟩
      (fun _ _ _ => .ok "") [] "t" [1, 2] ⟨["/s"], [("/s/t.snap", [1, 2])]⟩
      (by decide) (by decide) (by decide)⟩

/-- Claim C2: when the snapshot directory exists but no snapshot file
exists for the test identity, one `Assert` call with bytes `b` writes
exactly the file at the snapshot path, with contents exactly `b`, adds
exactly one file, and passes; a second call with the same `b` on the
resulting state also passes and changes nothing. -/
theorem assert_first_run_roundtrip
    (c : Config) (diffFn : DiffFn) (env : Env) (tn : String) (b : Bytes) (fs : FS)
    (hdir : fs.dirExists c.Directory = true)
    (hread : readSnapshot fs tn c.Directory c.Extension = none) :
    c.Assert diffFn env tn b fs = (fs.writeFile (c.snapPath tn) b, Outcome.pass) ∧
    (fs.writeFile (c.snapPath tn) b).readFile (c.snapPath tn) = some b ∧
    (fs.writeFile (c.snapPath tn) b).files.length = fs.files.length + 1 ∧
    c.Assert diffFn env tn b (fs.writeFile (c.snapPath tn) b) =
      (fs.writeFile (c.snapPath tn) b, Outcome.pass) := by
  refine ⟨?_, FS.readFile_writeFile_self fs _ b, FS.length_writeFile_new fs _ b hread, ?_⟩
  · simp [Config.Assert, hdir, hread, createSnapshot, Config.snapPath]
  · have hd2 : (fs.writeFile (c.snapPath tn) b).dirExists c.Directory = true := hdir
    simp [Config.Assert, hd2, readSnapshot_writeFile_snapPath fs c tn b]

theorem assert_first_run_roundtrip_check :
    FS.dirExists ⟨["/s"], []⟩ "/s" = true ∧
    readSnapshot ⟨["/s"], []⟩ "t" "/s" ".snap" = none ∧
    (Config.Assert ⟨"/s", 10, true, ".snap", none⟩ (fun _ _ _ => .ok "") [] "t" [7]
        ⟨["/s"], []⟩ =
      (FS.writeFile ⟨["/s"], []⟩ (Config.snapPath ⟨"/s", 10, true, ".snap", none⟩ "t") [7],
        Outcome.pass) ∧
      (FS.writeFile ⟨["/s"], []⟩ (Config.snapPath ⟨"/s", 10, true, ".snap", none⟩ "t")
          [7]).readFile (Config.snapPath ⟨"/s", 10, true, ".snap", none⟩ "t") = some [7] ∧
      (FS.writeFile ⟨["/s"], []⟩ (Config.snapPath ⟨"/s", 10, true, ".snap", none⟩ "t")
          [7]).files.length = List.length (FS.files ⟨["/s"], []⟩) + 1 ∧
      Config.Assert ⟨"/s", 10, true, ".snap", none⟩ (fun _ _ _ => .ok "") [] "t" [7]
          (FS.writeFile ⟨["/s"], []⟩ (Config.snapPath ⟨"/s", 10, true, ".snap", none⟩ "t") [7]) =
        (FS.writeFile ⟨["/s"], []⟩ (Config.snapPath ⟨"/s", 10, true, ".snap", none⟩ "t") [7],
          Outcome.pass)) :=
  ⟨by decide, by decide,
    assert_first_run_roundtrip ⟨"/s", 10, true, ".snap", none⟩ (fun _ _ _ => .ok "") [] "t" [7]
      ⟨["/s"], []⟩ (by decide) (by decide)⟩

/-- Claim C3: with update mode on, an existing snapshot whose stored bytes
differ from the actual bytes is overwritten with the actual bytes and the
assertion passes; afterwards the stored snapshot equals the new actual
bytes exactly. -/
theorem assert_update_overwrites
    (c : Config) (diffFn : DiffFn) (env : Env) (tn : String) (b stored : Bytes) (fs : FS)
    (hupd : isUpdateable env = true)
    (hdir : fs.dirExists c.Directory = true)
    (hread : readSnapshot fs tn c.Directory c.Extension = some stored)
    (hne : (stored == b) = false) :
    c.Assert diffFn env tn b fs = (fs.writeFile (c.snapPath tn) b, Outcome.pass) ∧
    readSnapshot (fs.writeFile (c.snapPath tn) b) tn c.Directory c.Extension = some b := by
  refine ⟨?_, readSnapshot_writeFile_snapPath fs c tn b⟩
  simp [Config.Assert, hupd, hdir, hread, hne, createSnapshot, Config.snapPath]

theorem assert_update_overwrites_check :
    isUpdateable [("UPDATE_SNAPSHOTS", "")] = true ∧
    FS.dirExists ⟨["/s"], [("/s/t.snap", [1])]⟩ "/s" = true ∧
    readSnapshot ⟨["/s"], [("/s/t.snap", [1])]⟩ "t" "/s" ".snap" = some [1] ∧
    (([1] : Bytes) == [2]) = false ∧
    (Config.Assert ⟨"/s", 10, true, ".snap", none⟩ (fun _ _ _ => .ok "") [("UPDATE_SNAPSHOTS", "")]
        "t" [2] ⟨["/s"], [("/s/t.snap", [1])]⟩ =
      (FS.writeFile ⟨["/s"], [("/s/t.snap", [1])]⟩
          (Config.snapPath ⟨"/s", 10, true, ".snap", none⟩ "t") [2], Outcome.pass) ∧
      readSnapshot (FS.writeFile ⟨["/s"], [("/s/t.snap", [1])]⟩
          (Config.snapPath ⟨"/s", 10, true, ".snap", none⟩ "t") [2]) "t" "/s" ".snap" =
        some [2]) :=
  ⟨by decide, by decide, by decide, by decide,
    assert_update_overwrites ⟨"/s", 10, true, ".snap", none⟩ (fun _ _ _ => .ok "")
      [("UPDATE_SNAPSHOTS", "")] "t" [2] [1] ⟨["/s"], [("/s/t.snap", [1])]⟩
      (by decide) (by decide) (by decide) (by decide)⟩

/-- Claim C4: with update mode off, `Diffable` true, an ignore pattern
configured, and stored bytes differing from actual bytes, `Assert` passes
with the filesystem unchanged exactly when the ignore matcher accepts the
computed diff text; otherwise it fails fatally with the diff text in the
message. -/
theorem assert_ignore_suppression_iff
    (c : Config) (diffFn : DiffFn) (env : Env) (tn : String) (b stored : Bytes) (fs : FS)
    (m : String → Bool) (dt : String)
    (hupd : isUpdateable env = false)
    (hdir : fs.dirExists c.Directory = true)
    (hread : readSnapshot fs tn c.Directory c.Extension = some stored)
    (hne : (stored == b) = false)
    (hdiffable : c.Diffable = true)
    (hig : c.ignore = some m)
    (hdiff : diffFn stored b c.Context = Except.ok dt) :
    (c.Assert diffFn env tn b fs = (fs, Outcome.pass) ↔ m dt = true) ∧
    (c.Assert diffFn env tn b fs =
        (fs, Outcome.fatalFail ("Snapshot test failed for: " ++ tn ++ ".  Diff:\n\n" ++ dt)) ↔
      m dt = false) := by
  have hA : c.Assert diffFn env tn b fs =
      if m dt then (fs, Outcome.pass)
      else (fs, Outcome.fatalFail ("Snapshot test failed for: " ++ tn ++ ".  Diff:\n\n" ++ dt)) := by
    simp [Config.Assert, hupd, hdir, hread, hne, hdiffable, hig, hdiff]
  cases hm : m dt <;> simp [hA, hm]

theorem assert_ignore_suppression_iff_check :
    isUpdateable ([] : Env) = false ∧
    FS.dirExists ⟨["/s"], [("/s/t.snap", [1])]⟩ "/s" = true ∧
    readSnapshot ⟨["/s"], [("/s/t.snap", [1])]⟩ "t" "/s" ".snap" = some [1] ∧
    (([1] : Bytes) == [2]) = false ∧
    Config.Diffable ⟨"/s", 10, true, ".snap", some (fun s => s == "DT")⟩ = true ∧
    Config.ignore ⟨"/s", 10, true, ".snap", some (fun s => s == "DT")⟩ =
      some (fun s => s == "DT") ∧
    (fun (_ _ : Bytes) (_ : Int) => (Except.ok "DT" : Except String String)) [1] [2]
      (Config.Context ⟨"/s", 10, true, ".snap", some (fun s => s == "DT")⟩) =
      Except.ok "DT" ∧
    ((Config.Assert ⟨"/s", 10, true, ".snap", some (fun s => s == "DT")⟩
          (fun _ _ _ => Except.ok "DT") [] "t" [2] ⟨["/s"], [("/s/t.snap", [1])]⟩ =
        (⟨["/s"], [("/s/t.snap", [1])]⟩, Outcome.pass) ↔ (fun s => s == "DT") "DT" = true) ∧
      (Config.Assert ⟨"/s", 10, true, ".snap", some (fun s => s == "DT")⟩
          (fun _ _ _ => Except.ok "DT") [] "t" [2] ⟨["/s"], [("/s/t.snap", [1])]⟩ =
        (⟨["/s"], [("/s/t.snap", [1])]⟩,
          Outcome.fatalFail ("Snapshot test failed for: " ++ "t" ++ ".  Diff:\n\n" ++ "DT")) ↔
        (fun s => s == "DT") "DT" = false)) :=
  ⟨by decide, by decide, by decide, by decide, rfl, rfl, rfl,
    assert_ignore_suppression_iff ⟨"/s", 10, true, ".snap", some (fun s => s == "DT")⟩
      (fun _ _ _ => Except.ok "DT") [] "t" [2] [1] ⟨["/s"], [("/s/t.snap", [1])]⟩
      (fun s => s == "DT") "DT"
      (by decide) (by decide) (by decide) (by decide) rfl rfl rfl⟩

/-- Claim C5: when the snapshot directory does not exist, `Assert` with
update mode on creates the directory and the snapshot file from the actual
bytes and passes, while with update mode off it fails fatally with the
missing-directory message and leaves the filesystem untouched. -/
theorem assert_missing_directory
    (c : Config) (diffFn : DiffFn) (env : Env) (tn : String) (b : Bytes) (fs : FS)
    (hdir : fs.dirExists c.Directory = false) :
    c.Assert diffFn env tn b fs =
      (if isUpdateable env then
        ((fs.mkdirAll c.Directory).writeFile (c.snapPath tn) b, Outcome.pass)
       else
        (fs, Outcome.fatalFail
          "No snapshot directory exists and UPDATE_SNAPSHOTS=false.  Failing.")) ∧
    (fs.mkdirAll c.Directory).dirExists c.Directory = true ∧
    ((fs.mkdirAll c.Directory).writeFile (c.snapPath tn) b).readFile (c.snapPath tn) =
      some b := by
  refine ⟨?_, FS.dirExists_mkdirAll_self fs c.Directory, FS.readFile_writeFile_self _ _ b⟩
  cases hu : isUpdateable env
  · simp [Config.Assert, hdir, hu]
  · simp [Config.Assert, hdir, hu, createSnapshot, FS.dirExists_mkdirAll_self, Config.snapPath]

theorem assert_missing_directory_check :
    FS.dirExists ⟨[], []⟩ "/s" = false ∧
    (Config.Assert ⟨"/s", 10, true, ".snap", none⟩ (fun _ _ _ => Except.ok "") [] "t" [5]
        ⟨[], []⟩ =
      (if isUpdateable [] then
        ((FS.mkdirAll ⟨[], []⟩ "/s").writeFile
          (Config.snapPath ⟨"/s", 10, true, ".snap", none⟩ "t") [5], Outcome.pass)
       else
        (⟨[], []⟩, Outcome.fatalFail
          "No snapshot directory exists and UPDATE_SNAPSHOTS=false.  Failing.")) ∧
      (FS.mkdirAll ⟨[], []⟩ "/s").dirExists "/s" = true ∧
      ((FS.mkdirAll ⟨[], []⟩ "/s").writeFile
          (Config.snapPath ⟨"/s", 10, true, ".snap", none⟩ "t") [5]).readFile
        (Config.snapPath ⟨"/s", 10, true, ".snap", none⟩ "t") = some [5]) :=
  ⟨by decide,
    assert_missing_directory ⟨"/s", 10, true, ".snap", none⟩ (fun _ _ _ => Except.ok "") [] "t"
      [5] ⟨[], []⟩ (by decide)⟩

/-- Claim C6: with update mode off and `Diffable` false, every mismatch
fails fatally with the generic undiffable-binary message, and the result
does not depend on the diff engine at all (no diff is computed). -/
theorem assert_undiffable_generic_failure
    (c : Config) (d1 d2 : DiffFn) (env : Env) (tn : String) (b stored : Bytes) (fs : FS)
    (hupd : isUpdateable env = false)
    (hdir : fs.dirExists c.Directory = true)
    (hread : readSnapshot fs tn c.Directory c.Extension = some stored)
    (hne : (stored == b) = false)
    (hdiffable : c.Diffable = false) :
    c.Assert d1 env tn b fs =
      (fs, Outcome.fatalFail
        ("Snapshot test failed for: " ++ tn ++ ".  Diff: (undiffable binary format)")) ∧
    c.Assert d2 env tn b fs = c.Assert d1 env tn b fs := by
  have h : ∀ d : DiffFn, c.Assert d env tn b fs =
      (fs, Outcome.fatalFail
        ("Snapshot test failed for: " ++ tn ++ ".  Diff: (undiffable binary format)")) := by
    intro d
    simp [Config.Assert, hupd, hdir, hread, hne, hdiffable]
  exact ⟨h d1, by rw [h d1, h d2]⟩

theorem assert_undiffable_generic_failure_check :
    isUpdateable ([] : Env) = false ∧
    FS.dirExists ⟨["/s"], [("/s/t.snap", [1])]⟩ "/s" = true ∧
    readSnapshot ⟨["/s"], [("/s/t.snap", [1])]⟩ "t" "/s" ".snap" = some [1] ∧
    (([1] : Bytes) == [2]) = false ∧
    Config.Diffable ⟨"/s", 10, false, ".snap", none⟩ = false ∧
    (Config.Assert ⟨"/s", 10, false, ".snap", none⟩ (fun _ _ _ => Except.ok "A") [] "t" [2]
        ⟨["/s"], [("/s/t.snap", [1])]⟩ =
      (⟨["/s"], [("/s/t.snap", [1])]⟩,
        Outcome.fatalFail
          ("Snapshot test failed for: " ++ "t" ++ ".  Diff: (undiffable binary format)")) ∧
      Config.Assert ⟨"/s", 10, false, ".snap", none⟩ (fun _ _ _ => Except.error "B") [] "t" [2]
          ⟨["/s"], [("/s/t.snap", [1])]⟩ =
        Config.Assert ⟨"/s", 10, false, ".snap", none⟩ (fun _ _ _ => Except.ok "A") [] "t" [2]
          ⟨["/s"], [("/s/t.snap", [1])]⟩) :=
  ⟨by decide, by decide, by decide, by decide, rfl,
    assert_undiffable_generic_failure ⟨"/s", 10, false, ".snap", none⟩
      (fun _ _ _ => Except.ok "A") (fun _ _ _ => Except.error "B") [] "t" [2] [1]
      ⟨["/s"], [("/s/t.snap", [1])]⟩ (by decide) (by decide) (by decide) (by decide) rfl⟩

/-- Claim C7 counterexample: the test name `Test: A/B <X>` with the
default `.snap` extension does not map to `test---a-b--x-.snap`; the colon
is not in the replacement set (the actual filename is
`test:-a-b--x-.snap`). -/
theorem getSnapFilename_example_mismatch :
    getSnapFilename "Test: A/B <X>" ".snap" ≠ "test---a-b--x-.snap" := by
  decide

/-- Claim C7 (amended): the snapshot filename is the test name lower-cased
character by character with apostrophe, space, `<`, `>`, `&`, `#`, `/`
and backslash each replaced by `-` and the extension appended; the mapping
is character-for-character (length-preserving before the extension), other
characters such as `:` are kept, and the name `Test: A/B <X>` with
extension `.snap` maps to `test:-a-b--x-.snap`. -/
theorem getSnapFilename_normalization (tn ext : String) :
    getSnapFilename tn ext =
      String.mk ((tn.data.map Char.toLower).map replaceSnapChar) ++ ext ∧
    (getSnapFilename tn ext).length = tn.length + ext.length ∧
    replaceSnapChar (Char.ofNat 39) = '-' ∧ replaceSnapChar ' ' = '-' ∧
    replaceSnapChar '<' = '-' ∧ replaceSnapChar '>' = '-' ∧
    replaceSnapChar '&' = '-' ∧ replaceSnapChar '#' = '-' ∧
    replaceSnapChar '/' = '-' ∧ replaceSnapChar '\\' = '-' ∧
    replaceSnapChar ':' = ':' ∧
    getSnapFilename "Test: A/B <X>" ".snap" = "test:-a-b--x-.snap" := by
  refine ⟨rfl, ?_, by decide, by decide, by decide, by decide, by decide, by decide,
    by decide, by decide, by decide, by decide⟩
  show (String.mk ((tn.data.map Char.toLower).map replaceSnapChar) ++ ext).length =
    tn.length + ext.length
  rw [String.length_append]
  have h1 : (String.mk ((tn.data.map Char.toLower).map replaceSnapChar)).length = tn.length := by
    show ((tn.data.map Char.toLower).map replaceSnapChar).length = tn.length
    rw [List.length_map, List.length_map]
    rfl
  rw [h1]

/-- Claim C8: update mode is on exactly when `UPDATE_SNAPSHOTS` is present
in the environment at the moment of the check — any value, including the
empty string, and the value is never inspected; `Assert` depends on the
environment it is handed at each call only through this presence check, so
nothing is cached across calls. -/
theorem isUpdateable_presence_no_cache
    (c : Config) (diffFn : DiffFn) (tn : String) (b : Bytes) (fs : FS)
    (env1 env2 : Env) (v : String)
    (h : isUpdateable env1 = isUpdateable env2) :
    isUpdateable (("UPDATE_SNAPSHOTS", v) :: env1) = true ∧
    isUpdateable ([] : Env) = false ∧
    isUpdateable env1 = (lookupEnv env1 "UPDATE_SNAPSHOTS").isSome ∧
    c.Assert diffFn env1 tn b fs = c.Assert diffFn env2 tn b fs := by
  refine ⟨?_, rfl, rfl, ?_⟩
  · simp [isUpdateable, lookupEnv, List.lookup]
  · unfold Config.Assert
    rw [h]

theorem isUpdateable_presence_no_cache_check :
    isUpdateable [("UPDATE_SNAPSHOTS", "x")] = isUpdateable [("UPDATE_SNAPSHOTS", "")] ∧
    (isUpdateable (("UPDATE_SNAPSHOTS", "y") :: [("UPDATE_SNAPSHOTS", "x")]) = true ∧
      isUpdateable ([] : Env) = false ∧
      isUpdateable [("UPDATE_SNAPSHOTS", "x")] =
        (lookupEnv [("UPDATE_SNAPSHOTS", "x")] "UPDATE_SNAPSHOTS").isSome ∧
      Config.Assert ⟨"/s", 10, true, ".snap", none⟩ (fun _ _ _ => Except.ok "")
          [("UPDATE_SNAPSHOTS", "x")] "t" [1] ⟨["/s"], []⟩ =
        Config.Assert ⟨"/s", 10, true, ".snap", none⟩ (fun _ _ _ => Except.ok "")
          [("UPDATE_SNAPSHOTS", "")] "t" [1] ⟨["/s"], []⟩) :=
  ⟨by decide,
    isUpdateable_presence_no_cache ⟨"/s", 10, true, ".snap", none⟩ (fun _ _ _ => Except.ok "")
      "t" [1] ⟨["/s"], []⟩ [("UPDATE_SNAPSHOTS", "x")] [("UPDATE_SNAPSHOTS", "")] "y"
      (by decide)⟩

/-- Claim C9 counterexample: `New` applied to the option
`ContextLines (-1)` succeeds and returns a configuration whose
context-line count is `-1`, which is negative. -/
theorem New_context_negative :
    (New "/w" [ContextLines (-1)]).map Config.Context = Except.ok (-1) ∧
    (-1 : Int) < 0 := by
  exact ⟨rfl, by decide⟩

/-- Claim C9 (amended): a configuration returned by `New` has context-line
count 10 when no option changes it, and `ContextLines n` sets the count to
exactly the given `n` with no validation, so the count is not guaranteed
non-negative. -/
theorem New_context_default_and_explicit (wd : String) (n : Int) :
    (New wd []).map Config.Context = Except.ok 10 ∧
    (New wd [ContextLines n]).map Config.Context = Except.ok n :=
  ⟨rfl, rfl⟩

/-- Claim C10: when `Diffable` is false the ignore pattern is never
consulted: a mismatch with update mode off fails with the undiffable
message even when an ignore matcher is configured that accepts the diff
text the diff engine would produce for the two byte sequences. -/
theorem assert_undiffable_skips_ignore
    (c : Config) (diffFn : DiffFn) (env : Env) (tn : String) (b stored : Bytes) (fs : FS)
    (m : String → Bool) (dt : String)
    (hupd : isUpdateable env = false)
    (hdir : fs.dirExists c.Directory = true)
    (hread : readSnapshot fs tn c.Directory c.Extension = some stored)
    (hne : (stored == b) = false)
    (hdiffable : c.Diffable = false)
    (_hig : c.ignore = some m)
    (_hdiff : diffFn stored b c.Context = Except.ok dt)
    (_hm : m dt = true) :
    c.Assert diffFn env tn b fs =
      (fs, Outcome.fatalFail
        ("Snapshot test failed for: " ++ tn ++ ".  Diff: (undiffable binary format)")) := by
  simp [Config.Assert, hupd, hdir, hread, hne, hdiffable]

theorem assert_undiffable_skips_ignore_check :
    isUpdateable ([] : Env) = false ∧
    FS.dirExists ⟨["/s"], [("/s/t.snap", [1])]⟩ "/s" = true ∧
    readSnapshot ⟨["/s"], [("/s/t.snap", [1])]⟩ "t" "/s" ".snap" = some [1] ∧
    (([1] : Bytes) == [2]) = false ∧
    Config.Diffable ⟨"/s", 10, false, ".snap", some (fun _ => true)⟩ = false ∧
    Config.ignore ⟨"/s", 10, false, ".snap", some (fun _ => true)⟩ =
      some (fun _ => true) ∧
    (fun (_ _ : Bytes) (_ : Int) => (Except.ok "DT" : Except String String)) [1] [2]
      (Config.Context ⟨"/s", 10, false, ".snap", some (fun _ => true)⟩) = Except.ok "DT" ∧
    (fun (_ : String) => true) "DT" = true ∧
    Config.Assert ⟨"/s", 10, false, ".snap", some (fun _ => true)⟩
        (fun _ _ _ => Except.ok "DT") [] "t" [2] ⟨["/s"], [("/s/t.snap", [1])]⟩ =
      (⟨["/s"], [("/s/t.snap", [1])]⟩,
        Outcome.fatalFail
          ("Snapshot test failed for: " ++ "t" ++ ".  Diff: (undiffable binary format)")) :=
  ⟨by decide, by decide, by decide, by decide, rfl, rfl, rfl, rfl,
    assert_undiffable_skips_ignore ⟨"/s", 10, false, ".snap", some (fun _ => true)⟩
      (fun _ _ _ => Except.ok "DT") [] "t" [2] [1] ⟨["/s"], [("/s/t.snap", [1])]⟩
      (fun _ => true) "DT"
      (by decide) (by decide) (by decide) (by decide) rfl rfl rfl rfl⟩

end Snapshot
